import Mathlib

/-!
Verification of the medical-report pipeline in `src/api` (services.py, app.py).

The Python services are shallowly embedded as total Lean functions:

* JSON values returned by the language-model oracle are modelled by `JValue`
  (numbers as exact rationals `ℚ` — the Python code only compares and rounds
  them, so the binary-float representation is abstracted to exact arithmetic);
* each oracle round-trip (`LLMService.generate_json`) is nondeterministic at
  run time, so every function that performs one takes the oracle's outcome as
  an explicit `Except String …` argument: `.error e` models the call raising
  an exception with message `e`, `.ok v` models a successfully parsed reply;
* Python code that raises becomes `Except String`; dictionaries become
  association lists in insertion order, with `dget` modelling `dict.get`
  (default `None`) and `setKey` modelling in-place key assignment.
-/

namespace MedReport

/-- A parsed JSON value, as produced by `json.loads` in `services.py`.
Objects keep their fields in insertion order, like Python dictionaries. -/
inductive JValue where
  | null
  | bool (b : Bool)
  | num (q : ℚ)
  | str (s : String)
  | arr (elems : List JValue)
  | obj (fields : List (String × JValue))

/-- Python truthiness (`if x:`) for the JSON values that can occur here:
`None`, `False`, `0`, `""`, `[]` and `\x7b\x7d` are falsy, everything else truthy. -/
def JValue.truthy : JValue → Bool
  | .null => false
  | .bool b => b
  | .num q => q != 0
  | .str s => !s.isEmpty
  | .arr elems => !elems.isEmpty
  | .obj fields => !fields.isEmpty

/-- Python's `x is None`. -/
def JValue.isNull : JValue → Bool
  | .null => true
  | _ => false

/-- Python's `x == s` for a string literal `s` (false on any non-string). -/
def JValue.isStrEq : JValue → String → Bool
  | .str t, s => t == s
  | _, _ => false

/-- Python `d.get(k)` on a dict: the stored value if the key is present
(even when that value is `None`), else `None`. -/
def dget (kvs : List (String × JValue)) (k : String) : JValue :=
  (kvs.lookup k).getD .null

/-- Python `d[k] = v`: overwrite in place when the key exists, else append. -/
def setKey (kvs : List (String × JValue)) (k : String) (v : JValue) :
    List (String × JValue) :=
  if (kvs.lookup k).isNone then kvs ++ [(k, v)]
  else kvs.map (fun p => if p.1 = k then (k, v) else p)

/-! ### Oracle adapter: `LLMService.generate_json` (services.py 32-81)

The transport (requests / Ollama) is external; the adapter's own logic —
strip, emptiness check, locating the first `\x7b` and the last `\x7d`, and the
single JSON-repair heuristic — is embedded exactly. `json.loads` is the
Python standard library, hence passed in as an abstract `parse` function. -/

/-- Python `str.find` restricted to a single character: index of the first
occurrence, `none` standing for Python's `-1`. -/
def pyFind : List Char → Char → Option Nat
  | [], _ => none
  | a :: rest, c => if a = c then some 0 else (pyFind rest c).map (· + 1)

/-- Python `str.rfind` for a single character: index of the last occurrence. -/
def pyRFind (l : List Char) (c : Char) : Option Nat :=
  (pyFind l.reverse c).map (fun k => l.length - 1 - k)

/-- Python `str.strip()`: drop leading and trailing whitespace. -/
def pyStrip (l : List Char) : List Char :=
  ((l.dropWhile Char.isWhitespace).reverse.dropWhile Char.isWhitespace).reverse

/-- Python `s.startswith(p)`. -/
def isPrefixB : List Char → List Char → Bool
  | [], _ => true
  | _ :: _, [] => false
  | a :: as, b :: bs => a == b && isPrefixB as bs

def pyStartsWith (s p : String) : Bool := isPrefixB p.data s.data

/-- Brace balance check used only to state the spec's "balanced `\x7b...\x7d`
object" hypothesis: depth never drops below zero and ends at zero. -/
def braceBalAux : List Char → Int → Bool
  | [], d => d == 0
  | c :: rest, d =>
    if c = '{' then braceBalAux rest (d + 1)
    else if c = '}' then (d > 0) && braceBalAux rest (d - 1)
    else braceBalAux rest d

def balancedBraces (l : List Char) : Bool := braceBalAux l 0

/-- `LLMService.generate_json`, from the point where the completion text
`responseText` (`result.get("response", "").strip()` in the source) has been
received. `parse` models `json.loads`, returning `none` on a decode error.
Error strings reproduce the source's exception messages after the wrapping
performed by its `except` clauses. -/
def generate_json (responseText : String) (parse : String → Option JValue) :
    Except String JValue :=
  let t := pyStrip responseText.data
  if t.isEmpty then
    .error "LLM generation failed: Empty response from Ollama"
  else
    match pyFind t '{', pyRFind t '}' with
    | some i, some j =>
      let jsonStr := String.mk ((t.drop i).take (j + 1 - i))
      match parse jsonStr with
      | some v => .ok v
      | none => .error "Invalid JSON from LLM"
    | _, _ => .error "LLM generation failed: No JSON object found in LLM response"

/-! ### OCR service: `OCRService` (services.py 88-157)

Tesseract and pdf2image are external collaborators, so a page is modelled by
the data they hand back: its whole-text output and its per-token confidence
array (`ocr_data['conf']`). -/

/-- One PDF page as seen after `pytesseract`: `text` is `image_to_string`,
`confs` is the `conf` column of `image_to_data`. -/
structure Page where
  text : String
  confs : List Int

/-- The dictionary returned by `extract_from_image` / `extract_from_pdf`,
with the confidence as an exact rational. -/
structure OCRResult where
  raw_text : String
  lines : List String
  ocr_confidence : ℚ

/-- Python `round(x, 2)` rounds half to even; on the exact rationals of this
model that is round-half-even of `100 * x`, scaled back. -/
def roundHalfEven (q : ℚ) : ℤ :=
  let f := ⌊q⌋
  let frac := q - f
  if frac < 1 / 2 then f
  else if 1 / 2 < frac then f + 1
  else if f % 2 = 0 then f else f + 1

def round2 (q : ℚ) : ℚ := (roundHalfEven (q * 100) : ℚ) / 100

/-- `[line.strip() for line in raw_text.split('\n') if line.strip()]`. -/
def pyLines (s : String) : List String :=
  ((s.split (· = '\n')).map String.trim).filter (fun l => !l.isEmpty)

/-- Mean of the positive confidences divided by 100, or 0.0 when none are
positive — the shared confidence formula of both OCR entry points. -/
def confAverage (confs : List Int) : ℚ :=
  let cs := confs.filter (0 < ·)
  if cs.isEmpty then 0 else (cs.map (Int.cast : Int → ℚ)).sum / cs.length / 100

/-- `OCRService.extract_from_image` after `pytesseract` produced `rawText`
and the confidence column `confs`. -/
def extract_from_image (rawText : String) (confs : List Int) : OCRResult :=
  { raw_text := rawText.trim
    lines := pyLines rawText
    ocr_confidence := round2 (confAverage confs) }

/-- One iteration of the page loop in `extract_from_pdf`: accumulates the
stripped page text, the page's non-empty stripped lines, and (when non-empty)
the page's positive-confidence tokens. -/
def pdfStep (acc : List String × List String × List Int) (page : Page) :
    List String × List String × List Int :=
  let confs := page.confs.filter (0 < ·)
  (acc.1 ++ [page.text.trim],
   acc.2.1 ++ pyLines page.text,
   if confs.isEmpty then acc.2.2 else acc.2.2 ++ confs)

/-- `OCRService.extract_from_pdf` after `convert_from_bytes` and per-page
`pytesseract` produced `pages` (decode failures are handled by the callers,
which receive this function's outcome as an `Except`). -/
def extract_from_pdf (pages : List Page) : OCRResult :=
  let r := pages.foldl pdfStep ([], [], [])
  let allConfs := r.2.2
  let avg : ℚ :=
    if allConfs.isEmpty then 0
    else (allConfs.map (Int.cast : Int → ℚ)).sum / allConfs.length / 100
  { raw_text := String.intercalate "\n" r.1
    lines := r.2.1
    ocr_confidence := round2 avg }

/-- Modelled from the spec's words, for comparison with the source: pool all
per-token confidences across pages before averaging. -/
def pooledConfidence (pages : List Page) : ℚ :=
  round2 (confAverage (pages.map Page.confs).flatten)

/-- Modelled from the spec's words, the rejected alternative it contrasts
with: a per-page average of per-page averages. -/
def perPageAveragedConfidence (pages : List Page) : ℚ :=
  let pageAvgs := pages.map (fun p => confAverage p.confs)
  if pageAvgs.isEmpty then 0 else round2 (pageAvgs.sum / pageAvgs.length)

/-! ### Extraction stage: `NormalizerService.normalize_tests` (services.py 170-213) -/

/-- The retention test of the completeness filter (services.py 194-200),
including the `AttributeError` Python raises when `ref_range` is truthy but
has no `.get` (a non-dict): truthiness checks on `name`, `unit`, `status`,
`ref_range`; `is not None` checks on `value`, `ref_range.low`,
`ref_range.high`, in the source's short-circuit order. -/
def keepTest (t : JValue) : Except String Bool :=
  match t with
  | .obj kvs =>
    if !(dget kvs "name").truthy then .ok false
    else if (dget kvs "value").isNull then .ok false
    else if !(dget kvs "unit").truthy then .ok false
    else if !(dget kvs "status").truthy then .ok false
    else if !(dget kvs "ref_range").truthy then .ok false
    else
      match dget kvs "ref_range" with
      | .obj r => .ok (!(dget r "low").isNull && !(dget r "high").isNull)
      | _ => .error "AttributeError: ref_range value has no attribute get"
  | _ => .error "AttributeError: test item has no attribute get"

/-- The loop over `result["tests"]` building `cleaned_tests` in order; the
first `AttributeError` aborts the whole call, as in Python. -/
def filterTests : List JValue → Except String (List JValue)
  | [] => .ok []
  | t :: rest =>
    match keepTest t with
    | .error e => .error e
    | .ok keep =>
      match filterTests rest with
      | .error e => .error e
      | .ok tail => .ok (if keep then t :: tail else tail)

/-- Lines 186-206 of services.py: the `if not result["tests"]` reset and the
completeness-filter loop, applied to the dictionary after the
`normalization_confidence` default has been filled in. -/
def normalizeFilterStep (result1 : List (String × JValue)) :
    Except String (List (String × JValue)) :=
  let testsVal := dget result1 "tests"
  if !testsVal.truthy then .ok (setKey result1 "tests" (.arr []))
  else
    match testsVal with
    | .arr ts =>
      match filterTests ts with
      | .ok cleaned => .ok (setKey result1 "tests" (.arr cleaned))
      | .error e => .error ("Normalization failed: " ++ e)
    | _ => .error "Normalization failed: TypeError: iteration over a non-list"

/-- `NormalizerService.normalize_tests`, with the extraction oracle's outcome
passed in (`oracle = .error e` models `generate_json` raising `e`). Error
strings carry the `"Normalization failed: "` wrapping of the outer `except`. -/
def normalize_tests (oracle : Except String (List (String × JValue))) :
    Except String (List (String × JValue)) :=
  match oracle with
  | .error e => .error ("Normalization failed: " ++ e)
  | .ok result =>
    if (result.lookup "tests").isNone then
      .error "Normalization failed: LLM response missing 'tests' field"
    else
      normalizeFilterStep
        (if (result.lookup "normalization_confidence").isNone then
          setKey result "normalization_confidence" (.num 0.8)
        else result)

/-- The claim's literal retention condition: all of `name`, `value`, `unit`,
`status`, `ref_range.low`, `ref_range.high` present and non-null. Modelled
from the spec's words for comparison with `keepTest`. -/
def presentNonNull (t : JValue) : Bool :=
  match t with
  | .obj kvs =>
    (kvs.lookup "name").isSome && !(dget kvs "name").isNull &&
    (kvs.lookup "value").isSome && !(dget kvs "value").isNull &&
    (kvs.lookup "unit").isSome && !(dget kvs "unit").isNull &&
    (kvs.lookup "status").isSome && !(dget kvs "status").isNull &&
    (match kvs.lookup "ref_range" with
     | some (.obj r) =>
       (r.lookup "low").isSome && !(dget r "low").isNull &&
       (r.lookup "high").isSome && !(dget r "high").isNull
     | _ => false)
  | _ => false

/-- The retention condition the source actually applies, as a pure boolean
(valid on well-shaped candidates, see `shapeOk`). -/
def keepB (t : JValue) : Bool :=
  match t with
  | .obj kvs =>
    (dget kvs "name").truthy && !(dget kvs "value").isNull &&
    (dget kvs "unit").truthy && (dget kvs "status").truthy &&
    (match dget kvs "ref_range" with
     | .obj r => !r.isEmpty && !(dget r "low").isNull && !(dget r "high").isNull
     | _ => false)
  | _ => false

/-- A candidate shape on which the filter cannot raise: the candidate is an
object whose `ref_range` value, when truthy, is itself an object. -/
def shapeOk (t : JValue) : Bool :=
  match t with
  | .obj kvs =>
    match dget kvs "ref_range" with
    | .obj _ => true
    | v => !v.truthy
  | _ => false

/-! ### Validation stage: `ValidatorService.validate_extraction` (services.py 297-339) -/

/-- Lines 320-331 of services.py: the `validation_response` built from a
response that does carry `status` — status, reason, and confidence forwarded
from the oracle, with the original extracted tests appended only when the
status is `"ok"`. -/
def validate_success (result : List (String × JValue)) (extractedTests : List JValue) :
    List (String × JValue) :=
  if (dget result "status").isStrEq "ok" then
    [("status", dget result "status"), ("reason", dget result "reason"),
     ("confidence", (result.lookup "confidence").getD (.num 0)),
     ("tests", .arr extractedTests)]
  else
    [("status", dget result "status"), ("reason", dget result "reason"),
     ("confidence", (result.lookup "confidence").getD (.num 0))]

/-- `ValidatorService.validate_extraction`. `oracle` is the validation
oracle's outcome (`.error e` models `generate_json` raising `e`); its own
`except` clause turns every failure into an `"unprocessed"` dictionary, so
the function is total. -/
def validate_extraction (oracle : Except String (List (String × JValue)))
    (_originalText : String) (extractedTests : List JValue) :
    List (String × JValue) :=
  if extractedTests.isEmpty then
    [("status", .str "unprocessed"),
     ("reason", .str "No tests extracted from input"),
     ("confidence", .num 0)]
  else
    match oracle with
    | .error e =>
      [("status", .str "unprocessed"),
       ("reason", .str ("Validation error: " ++ e)),
       ("confidence", .num 0)]
    | .ok result =>
      if (result.lookup "status").isNone then
        [("status", .str "unprocessed"),
         ("reason", .str "Validation error: LLM validation response missing 'status' field"),
         ("confidence", .num 0)]
      else validate_success result extractedTests

/-! ### Summarization stage: `SummarizerService.generate_summary` (services.py 411-437) -/

/-- `SummarizerService.generate_summary`, with the summarization oracle's
outcome passed in. Error strings carry the `"Summarization failed: "`
wrapping of the outer `except`. -/
def generate_summary (oracle : Except String (List (String × JValue)))
    (normalizedTests : List JValue) : Except String (List (String × JValue)) :=
  if normalizedTests.isEmpty then
    .ok [("summary", .str "No test results to summarize."),
         ("explanations", .arr []),
         ("status", .str "ok")]
  else
    match oracle with
    | .error e => .error ("Summarization failed: " ++ e)
    | .ok result =>
      if (result.lookup "summary").isNone || (result.lookup "explanations").isNone then
        .error "Summarization failed: LLM response missing required fields"
      else
        .ok (if (result.lookup "status").isNone then setKey result "status" (.str "ok")
             else result)

/-! ### HTTP layer models: the pydantic response classes (app.py 31-95)

Pydantic parsing is modelled as a strict typed check producing the model's
fields in declaration order and discarding unknown keys. (Pydantic's lenient
string-to-number coercions are not modelled; every claim below evaluates it
only on records that are already well-typed.) -/

/-- Pydantic `ReferenceRange`: requires numeric `low` and `high`. -/
def pydanticRefRange (v : JValue) : Option JValue :=
  match v with
  | .obj r =>
    match r.lookup "low", r.lookup "high" with
    | some (.num lo), some (.num hi) =>
      some (.obj [("low", .num lo), ("high", .num hi)])
    | _, _ => none
  | _ => none

/-- Pydantic `Test`: `name`, `unit`, `status` strings, `value` numeric,
`ref_range` a `ReferenceRange`. -/
def pydanticTest (v : JValue) : Option JValue :=
  match v with
  | .obj kvs =>
    match kvs.lookup "name", kvs.lookup "value", kvs.lookup "unit",
          kvs.lookup "status", kvs.lookup "ref_range" with
    | some (.str n), some (.num val), some (.str u), some (.str st), some rr =>
      (pydanticRefRange rr).map (fun rr2 =>
        .obj [("name", .str n), ("value", .num val), ("unit", .str u),
              ("status", .str st), ("ref_range", rr2)])
    | _, _, _, _, _ => none
  | _ => none

/-- Pydantic `Explanation`: `text` and `test_name` strings. -/
def pydanticExplanation (v : JValue) : Option JValue :=
  match v with
  | .obj kvs =>
    match kvs.lookup "text", kvs.lookup "test_name" with
    | some (.str t), some (.str n) =>
      some (.obj [("text", .str t), ("test_name", .str n)])
    | _, _ => none
  | _ => none

/-- What an endpoint hands back to the HTTP layer: a successful
`FinalResponse` (status `"ok"`), an `ErrorResponse` (status `"unprocessed"`,
served with a success HTTP code), a raised `HTTPException`, or an
`OCRResponse` from the standalone `/ocr` endpoint. -/
inductive Response where
  | final (tests : List JValue) (summary : String) (explanations : List JValue)
  | errorResp (reason : String)
  | httpError (code : Nat) (detail : String)
  | ocrOk (r : OCRResult)

/-- The endpoint's outcome is the domain-level `Unprocessed` verdict. -/
def Response.isUnprocessed : Response → Bool
  | .errorResp _ => true
  | _ => false

/-- The endpoint's outcome is a raised server error (5xx). -/
def Response.isServerError : Response → Bool
  | .httpError code _ => 500 ≤ code
  | _ => false

/-- Constructing `ErrorResponse(reason=...)`: pydantic requires a string
`reason`, raising a validation error otherwise. -/
def mkErrorResponse (reason : JValue) : Except String Response :=
  match reason with
  | .str s => .ok (.errorResp s)
  | _ => .error "pydantic validation error for ErrorResponse"

/-- Constructing `FinalResponse(...)`: every test must parse as a `Test`,
`summary` as a string, `explanations` as a list of `Explanation`. -/
def mkFinalResponse (tests : List JValue) (summary explanations : JValue) :
    Except String Response :=
  match tests.mapM pydanticTest, summary, explanations with
  | some ts, .str s, .arr es =>
    match es.mapM pydanticExplanation with
    | some es2 => .ok (.final ts s es2)
    | none => .error "pydantic validation error for FinalResponse"
  | _, _, _ => .error "pydantic validation error for FinalResponse"

/-! ### Pipeline orchestration (app.py 209-346)

`process_text_report` and `process_image_report` share steps 2-5 verbatim, so
those steps are factored into `pipelineTail`; its `Except` layer models the
endpoints' outer `try`, whose handler returns
`ErrorResponse(reason="Processing error: ...")`. -/

/-- Steps 2-5 of both endpoints: normalize, validate, short-circuit on an
`"unprocessed"` verdict, summarize, assemble the `FinalResponse`. -/
def pipelineTail (normO valO sumO : Except String (List (String × JValue)))
    (rawText : String) : Except String Response :=
  match normalize_tests normO with
  | .error e => .error e
  | .ok normalized =>
    match normalized.lookup "tests" with
    | none => .error "KeyError: tests"
    | some testsJ =>
      match testsJ with
      | .arr ts =>
        let valRes := validate_extraction valO rawText ts
        match valRes.lookup "status" with
        | none => .error "KeyError: status"
        | some status =>
          if status.isStrEq "unprocessed" then
            match valRes.lookup "reason" with
            | none => .error "KeyError: reason"
            | some reason => mkErrorResponse reason
          else
            match (valRes.lookup "tests").getD (.arr ts) with
            | .arr vts =>
              match generate_summary sumO vts with
              | .error e => .error e
              | .ok sk =>
                match sk.lookup "summary", sk.lookup "explanations" with
                | some summary, some expl => mkFinalResponse vts summary expl
                | _, _ => .error "KeyError: summary or explanations"
            | _ => .error "TypeError: validated tests not a list"
      | _ => .error "TypeError: tests not a list"

/-- `POST /process/text` (app.py 209-266). `normO`, `valO`, `sumO` are the
outcomes of the three oracle round-trips the stages would perform. -/
def process_text_report (normO valO sumO : Except String (List (String × JValue)))
    (text : String) : Response :=
  match pipelineTail normO valO sumO text with
  | .ok r => r
  | .error e => .errorResp ("Processing error: " ++ e)

/-- `POST /process/image` (app.py 269-346). `imageOcr` is the outcome of
`extract_from_image` on the uploaded bytes (its decode errors included);
`pdfPages` is the outcome of `convert_from_bytes` plus per-page OCR, fed to
`extract_from_pdf`. -/
def process_image_report (contentType : String)
    (imageOcr : Except String OCRResult) (pdfPages : Except String (List Page))
    (normO valO sumO : Except String (List (String × JValue))) : Response :=
  if !pyStartsWith contentType "image/" && contentType != "application/pdf" then
    .errorResp ("Unsupported file type: " ++ contentType)
  else
    let ocrE : Except String OCRResult :=
      if pyStartsWith contentType "image/" then imageOcr
      else Except.map extract_from_pdf pdfPages
    match ocrE with
    | .error e => .errorResp ("Processing error: " ++ e)
    | .ok ocrRes =>
      if ocrRes.ocr_confidence < 0.3 then
        .errorResp ("OCR confidence too low: " ++ toString ocrRes.ocr_confidence)
      else
        match pipelineTail normO valO sumO ocrRes.raw_text with
        | .ok r => r
        | .error e => .errorResp ("Processing error: " ++ e)

/-- `POST /ocr` (app.py 151-183): the standalone OCR endpoint. Any exception
— OCR failure or the re-raised unsupported-type `HTTPException(400)` — is
caught and surfaced as `HTTPException(500, detail=str(e))`. -/
def extract_text (contentType : String) (imageOcr : Except String OCRResult)
    (pdfPages : Except String (List Page)) : Response :=
  let outcome : Except String OCRResult :=
    if pyStartsWith contentType "image/" then imageOcr
    else if contentType == "application/pdf" then Except.map extract_from_pdf pdfPages
    else .error ("400: Unsupported file type: " ++ contentType ++
                 ". Please upload an image or PDF.")
  match outcome with
  | .ok r => .ocrOk r
  | .error e => .httpError 500 e

/-! ### Dictionary lemmas -/

theorem lookup_append_left {α β : Type} [BEq α] (l₁ l₂ : List (α × β)) (k : α) (v : β)
    (h : l₁.lookup k = some v) : (l₁ ++ l₂).lookup k = some v := by
  induction l₁ with
  | nil => simp [List.lookup] at h
  | cons p rest ih =>
    rw [List.cons_append, List.lookup] at *
    split at h
    · exact h
    · exact ih h

theorem lookup_append_right {α β : Type} [BEq α] (l₁ l₂ : List (α × β)) (k : α)
    (h : l₁.lookup k = none) : (l₁ ++ l₂).lookup k = l₂.lookup k := by
  induction l₁ with
  | nil => simp
  | cons p rest ih =>
    rw [List.cons_append, List.lookup] at *
    split at h
    · exact absurd h (by simp)
    · exact ih h

theorem lookup_map_replace_self (kvs : List (String × JValue)) (k : String) (v : JValue)
    (h : (kvs.lookup k).isSome = true) :
    (kvs.map (fun p => if p.1 = k then (k, v) else p)).lookup k = some v := by
  induction kvs with
  | nil => simp [List.lookup] at h
  | cons p rest ih =>
    obtain ⟨a, b⟩ := p
    by_cases hk : a = k
    · subst hk
      have hhead : (if ((a, b) : String × JValue).1 = a then (a, v) else (a, b)) = (a, v) :=
        if_pos rfl
      rw [List.map_cons, hhead, List.lookup, beq_self_eq_true]
    · have hbeq : (k == a) = false := beq_eq_false_iff_ne.mpr (Ne.symm hk)
      rw [List.lookup, hbeq] at h
      rw [List.map_cons, if_neg hk, List.lookup, hbeq]
      exact ih h

theorem lookup_map_replace_ne (kvs : List (String × JValue)) (k k2 : String) (v : JValue)
    (hne : k ≠ k2) :
    (kvs.map (fun p => if p.1 = k2 then (k2, v) else p)).lookup k = kvs.lookup k := by
  induction kvs with
  | nil => simp
  | cons p rest ih =>
    by_cases hk : p.1 = k2
    · have hbeq : (k == p.1) = false := by
        rw [beq_eq_false_iff_ne, hk]; exact hne
      have hbeq2 : (k == k2) = false := beq_eq_false_iff_ne.mpr hne
      rw [List.map_cons, if_pos hk, List.lookup, List.lookup, hbeq, hbeq2]
      exact ih
    · rw [List.map_cons, if_neg hk, List.lookup, List.lookup]
      cases k == p.1
      · exact ih
      · rfl

theorem lookup_setKey_self (kvs : List (String × JValue)) (k : String) (v : JValue) :
    (setKey kvs k v).lookup k = some v := by
  unfold setKey
  split
  · next h =>
    rw [Option.isNone_iff_eq_none] at h
    rw [lookup_append_right _ _ _ h, List.lookup, beq_self_eq_true]
  · next h =>
    have hs : (kvs.lookup k).isSome = true := by
      cases hx : kvs.lookup k
      · rw [hx] at h; simp at h
      · simp
    exact lookup_map_replace_self kvs k v hs

theorem lookup_setKey_ne (kvs : List (String × JValue)) (k k2 : String) (v : JValue)
    (hne : k ≠ k2) : (setKey kvs k2 v).lookup k = kvs.lookup k := by
  unfold setKey
  split
  · cases hx : kvs.lookup k with
    | none =>
      rw [lookup_append_right _ _ _ hx, List.lookup,
          beq_eq_false_iff_ne.mpr hne, List.lookup]
    | some w => exact lookup_append_left _ _ _ _ hx
  · exact lookup_map_replace_ne kvs k k2 v hne

/-! ### Completeness-filter lemmas (claim C1) -/

theorem keepTest_eq_keepB (t : JValue) (h : shapeOk t = true) :
    keepTest t = .ok (keepB t) := by
  cases t with
  | obj kvs =>
    rw [keepTest, keepB]
    rw [shapeOk] at h
    cases hrr : dget kvs "ref_range" with
    | obj r =>
      cases hname : (dget kvs "name").truthy <;>
      cases hval : (dget kvs "value").isNull <;>
      cases hunit : (dget kvs "unit").truthy <;>
      cases hstat : (dget kvs "status").truthy <;>
      cases hre : r.isEmpty <;>
      simp [JValue.truthy, hname, hval, hunit, hstat, hre]
    | null =>
      cases hname : (dget kvs "name").truthy <;>
      cases hval : (dget kvs "value").isNull <;>
      cases hunit : (dget kvs "unit").truthy <;>
      cases hstat : (dget kvs "status").truthy <;>
      simp [JValue.truthy, hname, hval, hunit, hstat]
    | bool b =>
      rw [hrr] at h
      simp only [JValue.truthy] at h
      cases hname : (dget kvs "name").truthy <;>
      cases hval : (dget kvs "value").isNull <;>
      cases hunit : (dget kvs "unit").truthy <;>
      cases hstat : (dget kvs "status").truthy <;>
      simp [JValue.truthy, hname, hval, hunit, hstat, h]
    | num q =>
      rw [hrr] at h
      simp only [JValue.truthy] at h
      cases hname : (dget kvs "name").truthy <;>
      cases hval : (dget kvs "value").isNull <;>
      cases hunit : (dget kvs "unit").truthy <;>
      cases hstat : (dget kvs "status").truthy <;>
      simp [JValue.truthy, hname, hval, hunit, hstat, h]
    | str s =>
      rw [hrr] at h
      simp only [JValue.truthy] at h
      cases hname : (dget kvs "name").truthy <;>
      cases hval : (dget kvs "value").isNull <;>
      cases hunit : (dget kvs "unit").truthy <;>
      cases hstat : (dget kvs "status").truthy <;>
      simp [JValue.truthy, hname, hval, hunit, hstat, h]
    | arr elems =>
      rw [hrr] at h
      simp only [JValue.truthy] at h
      cases hname : (dget kvs "name").truthy <;>
      cases hval : (dget kvs "value").isNull <;>
      cases hunit : (dget kvs "unit").truthy <;>
      cases hstat : (dget kvs "status").truthy <;>
      simp [JValue.truthy, hname, hval, hunit, hstat, h]
  | null => simp [shapeOk] at h
  | bool b => simp [shapeOk] at h
  | num q => simp [shapeOk] at h
  | str s => simp [shapeOk] at h
  | arr elems => simp [shapeOk] at h

theorem filterTests_eq (ts : List JValue) (h : ∀ t ∈ ts, shapeOk t = true) :
    filterTests ts = .ok (ts.filter keepB) := by
  induction ts with
  | nil => rfl
  | cons t rest ih =>
    rw [filterTests, keepTest_eq_keepB t (h t (by simp)),
        ih (fun x hx => h x (by simp [hx]))]
    rw [List.filter_cons]

theorem normalizeFilterStep_spec (R1 : List (String × JValue)) (ts : List JValue)
    (hR1T : R1.lookup "tests" = some (.arr ts))
    (hshape : ∀ t ∈ ts, shapeOk t = true) :
    normalizeFilterStep R1 = .ok (setKey R1 "tests" (.arr (ts.filter keepB))) := by
  have hd : dget R1 "tests" = .arr ts := by rw [dget, hR1T]; rfl
  simp only [normalizeFilterStep, hd]
  cases ts with
  | nil => simp [JValue.truthy]
  | cons t rest =>
    have ht : (JValue.arr (t :: rest)).truthy = true := by simp [JValue.truthy]
    rw [ht, filterTests_eq _ hshape]
    simp

/-! ### Sample records used by concrete instances -/

/-- A fully well-formed extracted record, exactly as the prompt's schema asks. -/
def hbRecord : JValue :=
  .obj [("name", .str "Hemoglobin"), ("value", .num 8.5), ("unit", .str "g/dL"),
        ("status", .str "low"),
        ("ref_range", .obj [("low", .num 12.0), ("high", .num 17.0)])]

/-- A record whose six claimed fields are all present and non-null, but whose
`name` is the empty string — falsy in Python. -/
def emptyNameRecord : JValue :=
  .obj [("name", .str ""), ("value", .num 8.5), ("unit", .str "g/dL"),
        ("status", .str "low"),
        ("ref_range", .obj [("low", .num 12.0), ("high", .num 17.0)])]

/-- A record whose `ref_range` is a truthy non-dict, on which the filter's
`.get` chain raises `AttributeError` instead of dropping the record. -/
def badRefRecord : JValue :=
  .obj [("name", .str "Platelets"), ("value", .num 1), ("unit", .str "/uL"),
        ("status", .str "low"), ("ref_range", .str "150-400")]

/-- C1 (counterexample): the claim says a candidate is retained if and only
if `name`, `value`, `unit`, `status`, `ref_range.low`, `ref_range.high` are
all present and non-null, every dropped candidate being dropped silently.
`emptyNameRecord` satisfies that condition yet is dropped (its name is the
falsy `""`), and `badRefRecord` is dropped with an `AttributeError` rather
than silently. -/
theorem C1_counterexample :
    presentNonNull emptyNameRecord = true
    ∧ normalize_tests (.ok [("tests", .arr [emptyNameRecord])]) =
        .ok [("tests", .arr []), ("normalization_confidence", .num 0.8)]
    ∧ normalize_tests (.ok [("tests", .arr [badRefRecord])]) =
        .error "Normalization failed: AttributeError: ref_range value has no attribute get" :=
  ⟨by decide, rfl, rfl⟩

/-- C1 (amended): for every oracle response whose `tests` entry is a list of
well-shaped candidates (each an object whose `ref_range`, when truthy, is an
object), `normalize_tests` succeeds — dropping candidates silently, not with
an error — and retains a candidate in the resulting `tests` entry exactly
when Python's truthiness/`is not None` condition `keepB` holds: `name`,
`unit`, `status`, `ref_range` truthy, and `value`, `ref_range.low`,
`ref_range.high` non-null. Retained records appear unchanged, in order, as
`ts.filter keepB`. -/
theorem C1_completeness_filter (result : List (String × JValue)) (ts : List JValue)
    (hT : result.lookup "tests" = some (.arr ts))
    (hshape : ∀ t ∈ ts, shapeOk t = true) :
    ∃ out, normalize_tests (.ok result) = .ok out
      ∧ out.lookup "tests" = some (.arr (ts.filter keepB))
      ∧ ∀ t ∈ ts, (keepB t = true ↔ t ∈ ts.filter keepB) := by
  have hmem : ∀ t ∈ ts, (keepB t = true ↔ t ∈ ts.filter keepB) := by
    intro t ht
    constructor
    · intro hk; exact List.mem_filter.mpr ⟨ht, hk⟩
    · intro hk; exact (List.mem_filter.mp hk).2
  simp only [normalize_tests, hT, Option.isNone_some, Bool.false_eq_true, if_false]
  refine ⟨_, normalizeFilterStep_spec _ ts ?_ hshape, lookup_setKey_self _ _ _, hmem⟩
  split
  · rw [lookup_setKey_ne _ _ _ _ (by decide)]; exact hT
  · exact hT

/-- C1 (witness): the amended theorem applied to a concrete extraction
response holding one well-formed record and one empty-named record: the
filter keeps exactly the well-formed one. -/
theorem C1_witness :
    ∃ out, normalize_tests (.ok [("tests", .arr [hbRecord, emptyNameRecord])]) = .ok out
      ∧ out.lookup "tests" = some (.arr ([hbRecord, emptyNameRecord].filter keepB))
      ∧ ∀ t ∈ [hbRecord, emptyNameRecord],
          (keepB t = true ↔ t ∈ [hbRecord, emptyNameRecord].filter keepB) :=
  C1_completeness_filter [("tests", .arr [hbRecord, emptyNameRecord])]
    [hbRecord, emptyNameRecord] rfl (by decide)

/-! ### Validator lemmas shared by C7 and C10 -/

theorem validate_oracle_error (e text : String) (ts : List JValue) (hne : ts ≠ []) :
    validate_extraction (.error e) text ts =
      [("status", .str "unprocessed"),
       ("reason", .str ("Validation error: " ++ e)),
       ("confidence", .num 0)] := by
  have hemp : ts.isEmpty = false := by
    cases ts
    · exact absurd rfl hne
    · rfl
  simp only [validate_extraction, hemp, Bool.false_eq_true, if_false]

theorem validate_missing_status (vr : List (String × JValue)) (text : String)
    (ts : List JValue) (hne : ts ≠ []) (hmiss : vr.lookup "status" = none) :
    validate_extraction (.ok vr) text ts =
      [("status", .str "unprocessed"),
       ("reason", .str "Validation error: LLM validation response missing 'status' field"),
       ("confidence", .num 0)] := by
  have hemp : ts.isEmpty = false := by
    cases ts
    · exact absurd rfl hne
    · rfl
  simp only [validate_extraction, hemp, Bool.false_eq_true, if_false, hmiss,
             Option.isNone_none, if_true]

/-- C8: for every input text and every oracle outcome, `validate_extraction`
applied to an empty test list returns the fixed rejection — status
`"unprocessed"`, confidence 0.0, a non-empty reason — and, being the same
for every oracle outcome, performs no oracle call. -/
theorem C8_empty_short_circuit (oracle : Except String (List (String × JValue)))
    (text : String) :
    validate_extraction oracle text [] =
      [("status", .str "unprocessed"),
       ("reason", .str "No tests extracted from input"),
       ("confidence", .num 0)]
    ∧ "No tests extracted from input" ≠ "" :=
  ⟨rfl, by decide⟩

/-- C9 (counterexample): the claim says `generate_summary []` returns exactly
the two-field result with `summary` and `explanations`, but the returned
dictionary also carries a third key, `status`. -/
theorem C9_counterexample :
    generate_summary (.error "oracle down") [] =
      .ok [("summary", .str "No test results to summarize."),
           ("explanations", .arr []), ("status", .str "ok")]
    ∧ (match generate_summary (.error "oracle down") [] with
       | .ok kvs => kvs.map Prod.fst
       | .error _ => []) ≠ ["summary", "explanations"] :=
  ⟨rfl, by decide⟩

/-- C9 (amended): `generate_summary` applied to an empty test list always
returns exactly the fixed result with `summary` equal to
`"No test results to summarize."`, empty `explanations`, and `status "ok"`,
for every oracle outcome — hence without making any oracle call. -/
theorem C9_empty_summary (oracle : Except String (List (String × JValue))) :
    generate_summary oracle [] =
      .ok [("summary", .str "No test results to summarize."),
           ("explanations", .arr []), ("status", .str "ok")] := rfl

/-- C7 (counterexample): when the validation oracle's response lacks
`status`, the rejection reason starts with a capital `"Validation error: "`,
so it is not of the claim's quoted form `"validation error: ..."`. -/
theorem C7_counterexample :
    (validate_extraction (.ok [("confidence", .num 0.5)]) "Hb: 8.5 g/dL"
        [hbRecord]).lookup "reason"
      = some (.str "Validation error: LLM validation response missing 'status' field")
    ∧ isPrefixB "validation error".data
        "Validation error: LLM validation response missing 'status' field".data = false :=
  ⟨rfl, by decide⟩

/-- C7 (amended): for every non-empty extracted test list, a validation
oracle response lacking the `status` field makes `validate_extraction`
return — not raise — a rejection with status `"unprocessed"`, reason
`"Validation error: LLM validation response missing 'status' field"`
(capital V), and confidence 0.0. -/
theorem C7_missing_status (vr : List (String × JValue)) (text : String)
    (ts : List JValue) (hne : ts ≠ []) (hmiss : vr.lookup "status" = none) :
    validate_extraction (.ok vr) text ts =
      [("status", .str "unprocessed"),
       ("reason", .str "Validation error: LLM validation response missing 'status' field"),
       ("confidence", .num 0)] :=
  validate_missing_status vr text ts hne hmiss

/-- C7 (witness): the amended theorem at a concrete status-less response. -/
theorem C7_witness :
    validate_extraction (.ok [("confidence", .num 0.5)]) "Hb: 8.5 g/dL" [hbRecord] =
      [("status", .str "unprocessed"),
       ("reason", .str "Validation error: LLM validation response missing 'status' field"),
       ("confidence", .num 0)] :=
  C7_missing_status [("confidence", .num 0.5)] "Hb: 8.5 g/dL" [hbRecord]
    (List.cons_ne_nil _ _) rfl

/-- C10: `validate_extraction` is total over oracle failures: its result
always carries a `status` key, and when the oracle round-trip raises
(transport failure, empty or unparsable completion) or its response lacks
`status`, the function returns — rather than propagates — a dictionary with
status `"unprocessed"`, confidence 0.0, and a non-empty reason. -/
theorem C10_validation_total (oracle : Except String (List (String × JValue)))
    (text : String) (ts : List JValue) :
    ((validate_extraction oracle text ts).lookup "status").isSome = true
    ∧ (∀ e, oracle = .error e → ts ≠ [] →
        validate_extraction oracle text ts =
          [("status", .str "unprocessed"),
           ("reason", .str ("Validation error: " ++ e)),
           ("confidence", .num 0)]
        ∧ ("Validation error: " ++ e) ≠ "")
    ∧ (∀ vr, oracle = .ok vr → vr.lookup "status" = none → ts ≠ [] →
        validate_extraction oracle text ts =
          [("status", .str "unprocessed"),
           ("reason",
            .str "Validation error: LLM validation response missing 'status' field"),
           ("confidence", .num 0)]) := by
  refine ⟨?_, ?_, ?_⟩
  · rw [validate_extraction.eq_def]
    split
    · rfl
    · split
      · rfl
      · split
        · rfl
        · rw [validate_success]
          split <;> rfl
  · intro e ho hne
    subst ho
    refine ⟨validate_oracle_error e text ts hne, ?_⟩
    intro hcontra
    have hlen := congrArg String.length hcontra
    rw [String.length_append] at hlen
    have h1 : ("Validation error: " : String).length = 18 := rfl
    have h2 : ("" : String).length = 0 := rfl
    rw [h1, h2] at hlen
    omega
  · intro vr ho hmiss hne
    subst ho
    exact validate_missing_status vr text ts hne hmiss

/-- C10 (witness): the theorem at a concrete transport failure. -/
theorem C10_witness :
    ((validate_extraction (.error "Ollama API failed with status 500") "report text"
        [hbRecord]).lookup "status").isSome = true
    ∧ (validate_extraction (.error "Ollama API failed with status 500") "report text"
          [hbRecord] =
        [("status", .str "unprocessed"),
         ("reason", .str ("Validation error: " ++ "Ollama API failed with status 500")),
         ("confidence", .num 0)]
       ∧ ("Validation error: " ++ "Ollama API failed with status 500") ≠ "") :=
  ⟨(C10_validation_total (.error "Ollama API failed with status 500") "report text"
      [hbRecord]).1,
   (C10_validation_total (.error "Ollama API failed with status 500") "report text"
      [hbRecord]).2.1 "Ollama API failed with status 500" rfl (List.cons_ne_nil _ _)⟩

/-! ### Pipeline lemmas shared by C2 and C6 -/

theorem pipelineTail_rejected (normO valO sumO : Except String (List (String × JValue)))
    (rawText : String) (nk : List (String × JValue)) (ts : List JValue) (R : String)
    (hn : normalize_tests normO = .ok nk)
    (ht : nk.lookup "tests" = some (.arr ts))
    (hs : (validate_extraction valO rawText ts).lookup "status" = some (.str "unprocessed"))
    (hr : (validate_extraction valO rawText ts).lookup "reason" = some (.str R)) :
    pipelineTail normO valO sumO rawText = .ok (.errorResp R) := by
  simp only [pipelineTail, hn, ht, hs, hr, JValue.isStrEq, beq_self_eq_true, if_true,
             mkErrorResponse]

theorem mapM_loop_id {f : JValue → Option JValue} :
    ∀ (l acc : List JValue), (∀ t ∈ l, f t = some t) →
      List.mapM.loop f l acc = some (acc.reverse ++ l) := by
  intro l
  induction l with
  | nil => intro acc h; simp [List.mapM.loop]
  | cons a l ih =>
    intro acc h
    rw [List.mapM.loop, h a (by simp)]
    show List.mapM.loop f l (a :: acc) = some (acc.reverse ++ a :: l)
    rw [ih (a :: acc) (fun t ht => h t (by simp [ht]))]
    simp

theorem mapM_loop_id_nil {f : JValue → Option JValue} (l : List JValue)
    (h : ∀ t ∈ l, f t = some t) : List.mapM.loop f l [] = some l := by
  rw [mapM_loop_id l [] h, List.reverse_nil, List.nil_append]

/-- C2: for every pipeline invocation — text or document — in which the
validation stage returns a rejection (`status "unprocessed"`) with reason
`R`, the pipeline's final result is the `Unprocessed` response with exactly
that reason `R`, and this holds for every summarization-oracle outcome, so
the summarization stage is never invoked. -/
theorem C2_rejection_propagation
    (normO valO : Except String (List (String × JValue)))
    (rawText : String) (nk : List (String × JValue)) (ts : List JValue) (R : String)
    (hn : normalize_tests normO = .ok nk)
    (ht : nk.lookup "tests" = some (.arr ts))
    (hs : (validate_extraction valO rawText ts).lookup "status" = some (.str "unprocessed"))
    (hr : (validate_extraction valO rawText ts).lookup "reason" = some (.str R)) :
    (∀ sumO, process_text_report normO valO sumO rawText = .errorResp R)
    ∧ (∀ sumO contentType imageOcr pdfPages ocrRes,
        (pyStartsWith contentType "image/" = true ∨ contentType = "application/pdf") →
        (if pyStartsWith contentType "image/" then imageOcr
         else Except.map extract_from_pdf pdfPages) = .ok ocrRes →
        ocrRes.raw_text = rawText →
        ¬ ocrRes.ocr_confidence < 0.3 →
        process_image_report contentType imageOcr pdfPages normO valO sumO =
          .errorResp R) := by
  constructor
  · intro sumO
    simp only [process_text_report,
               pipelineTail_rejected normO valO sumO rawText nk ts R hn ht hs hr]
  · intro sumO contentType imageOcr pdfPages ocrRes hsupp hocr hraw hconf
    have hunsupp :
        (!pyStartsWith contentType "image/" && contentType != "application/pdf") = false := by
      rcases hsupp with h | h
      · simp [h]
      · simp [h]
    simp only [process_image_report, hunsupp, Bool.false_eq_true, if_false, hocr,
               if_neg hconf, hraw,
               pipelineTail_rejected normO valO sumO rawText nk ts R hn ht hs hr]

/-- C2 (witness): a concrete run of both pipelines in which validation
rejects with reason `"possible hallucination"`: both return exactly that
reason, for the concrete summarizer outcome supplied. -/
theorem C2_witness :
    process_text_report (.ok [("tests", .arr [hbRecord])])
        (.ok [("status", .str "unprocessed"), ("reason", .str "possible hallucination"),
              ("confidence", .num 0.2)])
        (.ok [("summary", .str "unused"), ("explanations", .arr [])])
        "Hb: 8.5 g/dL"
      = .errorResp "possible hallucination"
    ∧ process_image_report "image/png" (.ok ⟨"Hb: 8.5 g/dL", ["Hb: 8.5 g/dL"], 1⟩)
        (.error "unused") (.ok [("tests", .arr [hbRecord])])
        (.ok [("status", .str "unprocessed"), ("reason", .str "possible hallucination"),
              ("confidence", .num 0.2)])
        (.ok [("summary", .str "unused"), ("explanations", .arr [])])
      = .errorResp "possible hallucination" := by
  have h := C2_rejection_propagation (.ok [("tests", .arr [hbRecord])])
    (.ok [("status", .str "unprocessed"), ("reason", .str "possible hallucination"),
          ("confidence", .num 0.2)])
    "Hb: 8.5 g/dL" [("tests", .arr [hbRecord]), ("normalization_confidence", .num 0.8)]
    [hbRecord] "possible hallucination" rfl rfl rfl rfl
  exact ⟨h.1 _,
         h.2 _ "image/png" (.ok ⟨"Hb: 8.5 g/dL", ["Hb: 8.5 g/dL"], 1⟩) (.error "unused")
           ⟨"Hb: 8.5 g/dL", ["Hb: 8.5 g/dL"], 1⟩ (Or.inl rfl) rfl rfl (by norm_num)⟩

/-- C6: whenever validation accepts (status `"ok"`) a non-empty extracted
test list, the validation response carries the original, pre-validation
record list unchanged, and the final `Ok` result of the text pipeline holds
exactly that list, in content and order, with the summary produced by the
summarizer applied to exactly that list. -/
theorem C6_validation_preserves_tests
    (normO sumO : Except String (List (String × JValue)))
    (vr nk sk : List (String × JValue)) (ts es : List JValue) (text s : String)
    (hn : normalize_tests normO = .ok nk)
    (ht : nk.lookup "tests" = some (.arr ts))
    (hne : ts ≠ [])
    (hstat : vr.lookup "status" = some (.str "ok"))
    (hsum : generate_summary sumO ts = .ok sk)
    (hsummary : sk.lookup "summary" = some (.str s))
    (hexpl : sk.lookup "explanations" = some (.arr es))
    (htests : ∀ t ∈ ts, pydanticTest t = some t)
    (hes : ∀ x ∈ es, pydanticExplanation x = some x) :
    (validate_extraction (.ok vr) text ts).lookup "tests" = some (.arr ts)
    ∧ process_text_report normO (.ok vr) sumO text = .final ts s es := by
  have hemp : ts.isEmpty = false := by
    cases ts
    · exact absurd rfl hne
    · rfl
  have hdg : dget vr "status" = .str "ok" := by rw [dget, hstat]; rfl
  have hv : validate_extraction (.ok vr) text ts =
      [("status", .str "ok"), ("reason", dget vr "reason"),
       ("confidence", (vr.lookup "confidence").getD (.num 0)), ("tests", .arr ts)] := by
    simp only [validate_extraction, hemp, Bool.false_eq_true, if_false, hstat,
               Option.isNone_some, validate_success, hdg, JValue.isStrEq,
               beq_self_eq_true, if_true]
  constructor
  · rw [hv]
    simp [List.lookup]
  · have hmapT : List.mapM.loop pydanticTest ts [] = some ts := mapM_loop_id_nil ts htests
    have hmapE : List.mapM.loop pydanticExplanation es [] = some es :=
      mapM_loop_id_nil es hes
    simp [process_text_report, pipelineTail, hn, ht, hv, hsum, hsummary, hexpl,
          mkFinalResponse, hmapT, hmapE, JValue.isStrEq, List.lookup]

/-- A concrete validation response that accepts with confidence 0.9. -/
def okValidationResp : List (String × JValue) :=
  [("status", .str "ok"), ("confidence", .num 0.9)]

/-- A concrete patient-friendly explanation record. -/
def demoExplanation : JValue :=
  .obj [("text", .str "Your hemoglobin is lower than normal."),
        ("test_name", .str "Hemoglobin")]

/-- A concrete summarization response for the `hbRecord` result set. -/
def demoSummaryResp : List (String × JValue) :=
  [("summary", .str "Your test results show low hemoglobin."),
   ("explanations", .arr [demoExplanation]), ("status", .str "ok")]

/-- A concrete extraction response holding exactly `hbRecord`. -/
def normRespOneTest : List (String × JValue) :=
  [("tests", .arr [hbRecord]), ("normalization_confidence", .num 0.9)]

/-- C6 (witness): a fully concrete accepted run: validation carries the
extracted record forward and the final response holds exactly it. -/
theorem C6_witness :
    (validate_extraction (.ok okValidationResp) "Hb: 8.5 g/dL" [hbRecord]).lookup "tests"
      = some (.arr [hbRecord])
    ∧ process_text_report (.ok normRespOneTest) (.ok okValidationResp)
        (.ok demoSummaryResp) "Hb: 8.5 g/dL"
      = .final [hbRecord] "Your test results show low hemoglobin." [demoExplanation] :=
  C6_validation_preserves_tests (.ok normRespOneTest) (.ok demoSummaryResp)
    okValidationResp normRespOneTest demoSummaryResp [hbRecord] [demoExplanation]
    "Hb: 8.5 g/dL" "Your test results show low hemoglobin."
    rfl rfl (List.cons_ne_nil _ _) rfl rfl rfl rfl
    (by intro t ht; rw [List.mem_singleton.mp ht]; rfl)
    (by intro x hx; rw [List.mem_singleton.mp hx]; rfl)

/-! ### C4: OCR failure surfacing -/

/-- C4 (counterexample): the claim says an OCR failure in a pipeline
invocation is surfaced as a processing failure (5xx-equivalent), not as an
`Unprocessed` outcome. In `process_image_report` the outer `except` catches
the OCR exception and returns the `Unprocessed` `ErrorResponse` instead. -/
theorem C4_counterexample :
    process_image_report "image/png" (.error "OCR failed: cannot identify image file")
        (.error "unused") (.error "unused") (.error "unused") (.error "unused")
      = .errorResp "Processing error: OCR failed: cannot identify image file"
    ∧ (process_image_report "image/png" (.error "OCR failed: cannot identify image file")
        (.error "unused") (.error "unused") (.error "unused") (.error "unused")).isUnprocessed
      = true
    ∧ (process_image_report "image/png" (.error "OCR failed: cannot identify image file")
        (.error "unused") (.error "unused") (.error "unused") (.error "unused")).isServerError
      = false :=
  ⟨rfl, rfl, rfl⟩

/-- C4 (amended): for every supported content type — `image/*` or
`application/pdf` — an OCR decoding/processing failure in the pipeline is
caught by the pipeline's outer handler and returned as the `Unprocessed`
outcome with reason `"Processing error: <cause>"`; only the standalone
`/ocr` endpoint surfaces the same failure as an HTTP 500 processing
failure. -/
theorem C4_ocr_failure_handling (contentType e : String)
    (imageOcr : Except String OCRResult) (pdfPages : Except String (List Page))
    (normO valO sumO : Except String (List (String × JValue)))
    (hsupp : pyStartsWith contentType "image/" = true ∨ contentType = "application/pdf")
    (hfail : (if pyStartsWith contentType "image/" then imageOcr
              else Except.map extract_from_pdf pdfPages) = .error e) :
    process_image_report contentType imageOcr pdfPages normO valO sumO =
      .errorResp ("Processing error: " ++ e)
    ∧ (process_image_report contentType imageOcr pdfPages normO valO sumO).isUnprocessed
      = true
    ∧ extract_text contentType imageOcr pdfPages = .httpError 500 e
    ∧ (extract_text contentType imageOcr pdfPages).isServerError = true := by
  have hunsupp :
      (!pyStartsWith contentType "image/" && contentType != "application/pdf") = false := by
    rcases hsupp with h | h
    · simp [h]
    · simp [h]
  have h1 : process_image_report contentType imageOcr pdfPages normO valO sumO =
      .errorResp ("Processing error: " ++ e) := by
    simp only [process_image_report, hunsupp, Bool.false_eq_true, if_false, hfail]
  have h2 : extract_text contentType imageOcr pdfPages = .httpError 500 e := by
    rcases hsupp with h | h
    · rw [h] at hfail
      simp only [if_true] at hfail
      simp [extract_text, h, hfail]
    · subst h
      have hps : pyStartsWith "application/pdf" "image/" = false := by decide
      rw [hps] at hfail
      simp only [Bool.false_eq_true, if_false] at hfail
      simp [extract_text, hps, hfail]
  exact ⟨h1, by rw [h1]; rfl, h2, by rw [h2]; rfl⟩

/-- C4 (witness): the amended theorem at a concrete failing image decode and
at a concrete failing PDF conversion. -/
theorem C4_witness :
    (process_image_report "image/png" (.error "OCR failed: unable to decode image")
        (.ok []) (.ok []) (.ok []) (.ok [])
      = .errorResp ("Processing error: " ++ "OCR failed: unable to decode image")
     ∧ extract_text "image/png" (.error "OCR failed: unable to decode image") (.ok [])
      = .httpError 500 "OCR failed: unable to decode image")
    ∧ (process_image_report "application/pdf" (.ok ⟨"", [], 1⟩)
        (.error "PDF OCR failed: poppler not installed") (.ok []) (.ok []) (.ok [])
      = .errorResp ("Processing error: " ++ "PDF OCR failed: poppler not installed")
     ∧ extract_text "application/pdf" (.ok ⟨"", [], 1⟩)
        (.error "PDF OCR failed: poppler not installed")
      = .httpError 500 "PDF OCR failed: poppler not installed") :=
  ⟨⟨(C4_ocr_failure_handling "image/png" "OCR failed: unable to decode image"
      (.error "OCR failed: unable to decode image") (.ok []) (.ok []) (.ok []) (.ok [])
      (Or.inl (by decide)) rfl).1,
    (C4_ocr_failure_handling "image/png" "OCR failed: unable to decode image"
      (.error "OCR failed: unable to decode image") (.ok []) (.ok []) (.ok []) (.ok [])
      (Or.inl (by decide)) rfl).2.2.1⟩,
   ⟨(C4_ocr_failure_handling "application/pdf" "PDF OCR failed: poppler not installed"
      (.ok ⟨"", [], 1⟩) (.error "PDF OCR failed: poppler not installed")
      (.ok []) (.ok []) (.ok []) (Or.inr rfl) rfl).1,
    (C4_ocr_failure_handling "application/pdf" "PDF OCR failed: poppler not installed"
      (.ok ⟨"", [], 1⟩) (.error "PDF OCR failed: poppler not installed")
      (.ok []) (.ok []) (.ok []) (Or.inr rfl) rfl).2.2.1⟩⟩

/-! ### C5: multi-page confidence pooling -/

/-- The claim's instance: page 1 with token confidences 90 and 90, page 2
with a single token confidence 10. -/
def demoPages : List Page := [⟨"page one text", [90, 90]⟩, ⟨"page two text", [10]⟩]

theorem pdf_foldl_confs (pages : List Page) (acc : List String × List String × List Int) :
    (pages.foldl pdfStep acc).2.2 =
      acc.2.2 ++ (pages.map (fun p => p.confs.filter (0 < ·))).flatten := by
  induction pages generalizing acc with
  | nil => simp
  | cons p rest ih =>
    rw [List.foldl_cons, ih]
    have hstep : (pdfStep acc p).2.2 = acc.2.2 ++ p.confs.filter (0 < ·) := by
      cases hc : (p.confs.filter (0 < ·)).isEmpty
      · simp [pdfStep, hc]
      · have hnil : p.confs.filter (0 < ·) = [] := List.isEmpty_iff.mp hc
        simp [pdfStep, hc, hnil]
    rw [hstep]
    simp [List.append_assoc]

theorem filter_flatten_eq (pages : List Page) :
    ((pages.map Page.confs).flatten).filter (0 < ·) =
      (pages.map (fun p => p.confs.filter (0 < ·))).flatten := by
  induction pages with
  | nil => rfl
  | cons p rest ih => simp [List.filter_append, ih]

/-- C5 (counterexample): the claim computes the instance value as
`mean(90,90,10)/100 = 0.633`, but the code rounds the overall confidence to
2 decimals, so `extract_from_pdf` reports 0.63, not 0.633. -/
theorem C5_counterexample :
    (extract_from_pdf demoPages).ocr_confidence = 0.63
    ∧ (0.63 : ℚ) ≠ 0.633 := by
  constructor
  · simp only [extract_from_pdf, demoPages, List.foldl, pdfStep]
    norm_num [confAverage, round2, roundHalfEven]
  · norm_num

/-- C5 (amended): the overall PDF confidence is computed by pooling all
positive per-token confidences across all pages before averaging, dividing
by 100 and rounding to 2 decimals — never a per-page average of per-page
averages. On the claim's instance ([90,90] and [10]) it equals 0.63 (the
pooled mean 0.6333… rounded), which differs from the per-page-averaged
0.50. -/
theorem C5_pooled_confidence :
    (∀ pages, (extract_from_pdf pages).ocr_confidence = pooledConfidence pages)
    ∧ (extract_from_pdf demoPages).ocr_confidence = 0.63
    ∧ perPageAveragedConfidence demoPages = 0.5
    ∧ (0.63 : ℚ) ≠ (0.5 : ℚ) := by
  have hpool : ∀ pages, (extract_from_pdf pages).ocr_confidence = pooledConfidence pages := by
    intro pages
    simp only [extract_from_pdf, pooledConfidence, confAverage,
               pdf_foldl_confs pages ([], [], []), filter_flatten_eq, List.nil_append]
  refine ⟨hpool, ?_, ?_, by norm_num⟩
  · simp only [extract_from_pdf, demoPages, List.foldl, pdfStep]
    norm_num [confAverage, round2, roundHalfEven]
  · norm_num [perPageAveragedConfidence, demoPages, confAverage, round2, roundHalfEven]

/-! ### C3: locating and parsing the JSON object in the completion -/

theorem pyFind_append_of_notMem (p l : List Char) (c : Char) (h : c ∉ p) :
    pyFind (p ++ l) c = (pyFind l c).map (· + p.length) := by
  induction p with
  | nil =>
    simp only [List.nil_append, List.length_nil]
    cases pyFind l c <;> simp
  | cons a rest ih =>
    have hac : a ≠ c := fun hh => h (by simp [hh])
    have hrest : c ∉ rest := fun hh => h (by simp [hh])
    rw [List.cons_append, pyFind, if_neg hac, ih hrest]
    cases pyFind l c <;> simp [Nat.add_assoc]

theorem pyFind_cons_self (l : List Char) (c : Char) : pyFind (c :: l) c = some 0 := by
  rw [pyFind, if_pos rfl]

/-- Where the first `{` and the last `}` of `p1 ++ obj ++ p2` are when the
prose `p1`, `p2` is brace-free and `obj` is brace-delimited, and that the
inclusive slice between them is exactly `obj`. -/
theorem extract_locates_object (p1 obj p2 : List Char)
    (h1 : '{' ∉ p1) (h2 : '}' ∉ p2)
    (hh : obj.head? = some '{') (hl : obj.getLast? = some '}') :
    pyFind (p1 ++ obj ++ p2) '{' = some p1.length
    ∧ pyRFind (p1 ++ obj ++ p2) '}' = some (p1.length + obj.length - 1)
    ∧ ((p1 ++ obj ++ p2).drop p1.length).take (p1.length + obj.length - 1 + 1 - p1.length)
      = obj := by
  obtain ⟨tl, rfl⟩ : ∃ tl, obj = '{' :: tl := by
    cases obj with
    | nil => simp at hh
    | cons a tl =>
      simp only [List.head?_cons, Option.some_inj] at hh
      exact ⟨tl, by rw [hh]⟩
  refine ⟨?_, ?_, ?_⟩
  · rw [List.append_assoc, pyFind_append_of_notMem p1 _ _ h1, List.cons_append,
        pyFind_cons_self]
    simp
  · obtain ⟨r, hrev⟩ : ∃ r, ('{' :: tl).reverse = '}' :: r := by
      have hhead : ('{' :: tl).reverse.head? = some '}' := by
        rw [List.head?_reverse]; exact hl
      cases hrec : ('{' :: tl).reverse with
      | nil => rw [hrec] at hhead; simp at hhead
      | cons b r =>
        rw [hrec] at hhead
        simp only [List.head?_cons, Option.some_inj] at hhead
        exact ⟨r, by rw [hhead]⟩
    have hrew : (p1 ++ ('{' :: tl) ++ p2).reverse =
        p2.reverse ++ (('{' :: tl).reverse ++ p1.reverse) := by
      simp [List.reverse_append]
    rw [pyRFind, hrew, pyFind_append_of_notMem _ _ _ (by simpa using h2), hrev,
        List.cons_append, pyFind_cons_self]
    simp only [Option.map_some', Option.some_inj, List.length_append,
               List.length_reverse, List.length_cons]
    omega
  · have hlen : p1.length + ('{' :: tl).length - 1 + 1 - p1.length =
        ('{' :: tl).length := by
      simp only [List.length_cons]
      omega
    rw [hlen, List.append_assoc, List.drop_left, List.take_left]

/-- C3: `generate_json` locates the first `{` and the last `}` of the
stripped completion and parses the inclusive substring between them,
returning the parsed object; when no such pair exists it fails with an
error and attempts no further repair, and when the substring does not parse
it fails with the invalid-JSON error. In particular, for a completion whose
stripped text is exactly one brace-delimited balanced object surrounded by
brace-free prose, the extracted substring is that object byte-identically,
whatever the prose. -/
theorem C3_complete_json (parse : String → Option JValue) :
    (∀ s : String,
        pyFind (pyStrip s.data) '{' = none ∨ pyRFind (pyStrip s.data) '}' = none →
        ∃ e, generate_json s parse = .error e)
    ∧ (∀ (s : String) (i j : Nat),
        pyFind (pyStrip s.data) '{' = some i →
        pyRFind (pyStrip s.data) '}' = some j →
        generate_json s parse =
          match parse (String.mk (((pyStrip s.data).drop i).take (j + 1 - i))) with
          | some v => .ok v
          | none => .error "Invalid JSON from LLM")
    ∧ (∀ (s : String) (p1 obj p2 : List Char),
        pyStrip s.data = p1 ++ obj ++ p2 →
        '{' ∉ p1 → '}' ∉ p1 → '{' ∉ p2 → '}' ∉ p2 →
        obj.head? = some '{' → obj.getLast? = some '}' →
        balancedBraces obj = true →
        generate_json s parse =
          match parse (String.mk obj) with
          | some v => .ok v
          | none => .error "Invalid JSON from LLM") := by
  refine ⟨?_, ?_, ?_⟩
  · intro s hor
    cases hemp : (pyStrip s.data).isEmpty
    · rcases hor with h | h
      · refine ⟨"LLM generation failed: No JSON object found in LLM response", ?_⟩
        rw [generate_json.eq_def]
        simp only [hemp, Bool.false_eq_true, if_false, h]
      · refine ⟨"LLM generation failed: No JSON object found in LLM response", ?_⟩
        rw [generate_json.eq_def]
        simp only [hemp, Bool.false_eq_true, if_false, h]
        cases pyFind (pyStrip s.data) '{' <;> rfl
    · exact ⟨"LLM generation failed: Empty response from Ollama",
        by simp [generate_json, hemp]⟩
  · intro s i j hi hj
    have hemp : (pyStrip s.data).isEmpty = false := by
      cases hd : pyStrip s.data
      · rw [hd] at hi; simp [pyFind] at hi
      · rfl
    simp only [generate_json, hemp, Bool.false_eq_true, if_false, hi, hj]
  · intro s p1 obj p2 hsplit hp1o hp1c hp2o hp2c hh hl _hbal
    have hE := extract_locates_object p1 obj p2 hp1o hp2c hh hl
    have hi : pyFind (pyStrip s.data) '{' = some p1.length := by
      rw [hsplit]; exact hE.1
    have hj : pyRFind (pyStrip s.data) '}' = some (p1.length + obj.length - 1) := by
      rw [hsplit]; exact hE.2.1
    have hemp : (pyStrip s.data).isEmpty = false := by
      cases hd : pyStrip s.data
      · rw [hd] at hi; simp [pyFind] at hi
      · rfl
    simp only [generate_json, hemp, Bool.false_eq_true, if_false, hi, hj]
    rw [hsplit, hE.2.2]

/-- A concrete stand-in for `json.loads`, recognizing one fixed object. -/
def demoParse : String → Option JValue :=
  fun s => if s = "\x7b\"a\": 1\x7d" then some (.obj [("a", .num 1)]) else none

/-- C3 (witness): the theorem applied to a concrete completion with prose on
both sides of the object, and to a concrete completion with no braces. -/
theorem C3_witness :
    generate_json "  note \x7b\"a\": 1\x7d done " demoParse = .ok (.obj [("a", .num 1)])
    ∧ (∃ e, generate_json "only prose, no braces" demoParse = .error e) := by
  constructor
  · rw [(C3_complete_json demoParse).2.2 "  note \x7b\"a\": 1\x7d done "
      "note ".data "\x7b\"a\": 1\x7d".data " done".data (by decide) (by decide)
      (by decide) (by decide) (by decide) (by decide) (by decide) (by decide)]
    rfl
  · exact (C3_complete_json demoParse).1 "only prose, no braces" (Or.inl (by decide))

end MedReport
